import Mathlib

/-!
Shallow embedding of the network-device configuration core of this repository:
the SSH session driver and command-execution orchestrator (network_tools.py),
the equipment-type registry (app/models.py) and the configuration safety
validator (tools/__init__.py), together with theorems settling the behavioural
claims about these components.

Python strings become Lean String, Python lists become Lean List, dictionaries
returned by the code become Lean structures.  The unreliable device I/O is made
explicit: the sequence of chunks the device delivers during one read window is
a list of read events, and the behaviour of the device for the i-th executed
command of a batch is an oracle function from the execution index.
-/

/-! ### Substring search (the Python `in` operator on strings) -/

/-- Scan for an occurrence of the character list needle inside a character
list, mirroring the semantics of the Python substring operator. -/
def subSearch (needle : List Char) : List Char → Bool
  | [] => needle.isEmpty
  | c :: cs => needle.isPrefixOf (c :: cs) || subSearch needle cs

/-- Model of the Python expression needle in hay for strings. -/
def strContains (hay needle : String) : Bool :=
  subSearch needle.toList hay.toList

/-- Model of the Python str.lower() used by the code: character-wise
lowercasing (defined structurally so that concrete instances evaluate;
faithful on the ASCII repertoire of device commands and outputs). -/
def lowerString (s : String) : String := String.mk (s.data.map Char.toLower)

/-! ### Equipment types (app/models.py, class EquipmentType) -/

/-- The closed enumeration of equipment types from app/models.py. -/
inductive EquipmentType where
  | CISCO_IOS
  | JUNIPER_JUNOS
  | HUAWEI
  | MIKROTIK
deriving DecidableEq

/-- The string value carried by each enum member in app/models.py. -/
def EquipmentType.value : EquipmentType → String
  | EquipmentType.CISCO_IOS => "cisco_ios"
  | EquipmentType.JUNIPER_JUNOS => "juniper_junos"
  | EquipmentType.HUAWEI => "huawei"
  | EquipmentType.MIKROTIK => "mikrotik"

/-- Model of the Python enum constructor EquipmentType(s): the member whose
value equals s, or none (a ValueError in Python). -/
def equipmentTypeFromString (s : String) : Option EquipmentType :=
  if s = "cisco_ios" then some EquipmentType.CISCO_IOS
  else if s = "juniper_junos" then some EquipmentType.JUNIPER_JUNOS
  else if s = "huawei" then some EquipmentType.HUAWEI
  else if s = "mikrotik" then some EquipmentType.MIKROTIK
  else none

/-- Model of the resolution step of execute_commands_ssh
(network_tools.py lines 327-332): lowercase the identifier, try the enum
constructor, and fall back to CISCO_IOS when it raises ValueError. -/
def resolve_device_type (s : String) : EquipmentType :=
  match equipmentTypeFromString (lowerString s) with
  | some t => t
  | none => EquipmentType.CISCO_IOS

/-- SSHClient._get_config_mode_commands (network_tools.py lines 284-300):
the per-vendor configuration-entry command sequence. -/
def get_config_mode_commands : EquipmentType → List String
  | EquipmentType.CISCO_IOS => ["enable", "configure terminal"]
  | EquipmentType.JUNIPER_JUNOS => ["configure"]
  | EquipmentType.HUAWEI => ["system-view"]
  | EquipmentType.MIKROTIK => []

/-- SSHClient._get_exit_commands (network_tools.py lines 302-318):
the per-vendor exit/commit command sequence. -/
def get_exit_commands : EquipmentType → List String
  | EquipmentType.CISCO_IOS => ["end", "exit"]
  | EquipmentType.JUNIPER_JUNOS => ["commit", "exit"]
  | EquipmentType.HUAWEI => ["commit", "quit"]
  | EquipmentType.MIKROTIK => []

/-! ### The bounded read loop (SSHClient._read_until_timeout, lines 100-130) -/

/-- One observable step of the read loop: either a chunk of decoded output
arrives from the 0.5s bounded read, or that bounded read times out (the inner
asyncio.TimeoutError branch).  The overall window elapsing is modelled by the
event list being exhausted. -/
inductive ReadEvent where
  | chunk (s : String)
  | tick
deriving DecidableEq

/-- The fixed prompt-terminator character set tested by the read loop. -/
def promptTerminators : List Char := ['#', '>', '$', ':']

/-- The test used on the accumulated output at lines 119 and 123. -/
def hasTerminator (s : String) : Bool :=
  s.toList.any (fun c => promptTerminators.contains c)

/-- SSHClient._read_until_timeout: accumulate chunks until the buffer holds a
prompt terminator or the window is exhausted, then RETURN the buffer (the
function never raises: the inner TimeoutError is swallowed with continue and
any other exception is caught at line 127 returning the partial buffer).
An empty chunk is appended harmlessly here: the loop invariant is that the
accumulator is terminator-free on entry, so the extra test cannot fire. -/
def read_until_timeout : List ReadEvent → String → String
  | [], acc => acc
  | ReadEvent.chunk s :: rest, acc =>
    let acc2 := acc ++ s
    if hasTerminator acc2 then acc2 else read_until_timeout rest acc2
  | ReadEvent.tick :: rest, acc =>
    if hasTerminator acc then acc else read_until_timeout rest acc

/-! ### Single-command execution (SSHClient.execute_command, lines 167-208) -/

/-- The result dictionary built by execute_command. -/
structure CommandResult where
  success : Bool
  command : String
  output : String
  error : Option String
deriving DecidableEq

/-- The environment behaviour for one executed command: either send_command
returns normally with the events seen by the read loop, or an
asyncio.TimeoutError escapes the send path (lines 195-201), or some other
exception is raised (lines 202-208). -/
inductive CmdBehavior where
  | read (events : List ReadEvent)
  | timeoutErr
  | exc (msg : String)
deriving DecidableEq

/-- The failure-keyword set of line 186. -/
def failureKeywords : List String := ["error", "invalid", "failed", "incorrect", "%"]

/-- The success classification of line 186: no failure keyword occurs in the
case-folded output. -/
def classifySuccess (out : String) : Bool :=
  !(failureKeywords.any (fun k => strContains (lowerString out) k))

/-- The generic rejection reason of line 192. -/
def genericErrorReason : String := "Обнаружена ошибка в выводе команды"

/-- The distinct timeout reason of line 200 (the Python code also formats the
timeout value into the message; the claims only depend on the reason being
distinct from the generic one, so the constant prefix is kept). -/
def timeoutReason : String := "Таймаут выполнения команды"

/-- SSHClient.execute_command: run the command against the given environment
behaviour and classify the outcome. -/
def execute_command (command : String) (b : CmdBehavior) : CommandResult :=
  match b with
  | CmdBehavior.read events =>
    let output := read_until_timeout events ""
    let ok := classifySuccess output
    { success := ok, command := command, output := output,
      error := if ok then none else some genericErrorReason }
  | CmdBehavior.timeoutErr =>
    { success := false, command := command, output := "", error := some timeoutReason }
  | CmdBehavior.exc msg =>
    { success := false, command := command, output := "", error := some msg }

/-! ### Batch execution (SSHClient.execute_commands, lines 210-282) -/

/-- The mutable loop state of execute_commands: the accumulated results list,
the all_success flag, the number of commands executed so far (used to index
the device oracle), and whether an unexpected exception has been raised. -/
structure PhaseState where
  results : List CommandResult
  allSuccess : Bool
  idx : Nat
  raised : Bool
deriving DecidableEq

/-- The interruption oracle: intr i = true means an unexpected exception is
raised during the inter-command delay that follows the i-th executed command
(the awaits between commands are the only points inside the try block of
execute_commands where an exception can escape, since execute_command catches
its own). -/
def noIntr : Nat → Bool := fun _ => false

/-- The configuration-entry loop (lines 236-243): append each result, abort
the phase on the first failure (the break precedes the delay, so no
interruption is possible after a failing command), otherwise sleep - where the
interruption oracle may fire - and continue. -/
def runEntry (dev : Nat → CmdBehavior) (intr : Nat → Bool) :
    List String → PhaseState → PhaseState
  | [], st => st
  | cmd :: rest, st =>
    let r := execute_command cmd (dev st.idx)
    let st2 := { st with results := st.results ++ [r], idx := st.idx + 1 }
    if r.success then
      if intr st.idx then { st2 with raised := true }
      else runEntry dev intr rest st2
    else
      { st2 with allSuccess := false }

/-- The main command loop (lines 250-255): append each result, clear
all_success on failure but keep going (continue-on-error), sleep (interruption
point), continue. -/
def runMain (dev : Nat → CmdBehavior) (intr : Nat → Bool) :
    List String → PhaseState → PhaseState
  | [], st => st
  | cmd :: rest, st =>
    let r := execute_command cmd (dev st.idx)
    let st2 := { st with
      results := st.results ++ [r]
      idx := st.idx + 1
      allSuccess := st.allSuccess && r.success }
    if intr st.idx then { st2 with raised := true }
    else runMain dev intr rest st2

/-- The exit command loop (lines 260-263): append each result without
touching all_success, sleep (interruption point), continue. -/
def runExit (dev : Nat → CmdBehavior) (intr : Nat → Bool) :
    List String → PhaseState → PhaseState
  | [], st => st
  | cmd :: rest, st =>
    let r := execute_command cmd (dev st.idx)
    let st2 := { st with results := st.results ++ [r], idx := st.idx + 1 }
    if intr st.idx then { st2 with raised := true }
    else runExit dev intr rest st2

/-- The execution report dictionary of lines 265-271 and 275-282. -/
structure ExecReport where
  success : Bool
  equipment_type : String
  total_commands : Nat
  successful_commands : Nat
  results : List CommandResult
  error : Option String
deriving DecidableEq

/-- The two return paths of execute_commands: the normal return (lines
265-271) counts the successful results, the except branch (lines 275-282)
reports success false, successful_commands 0 and the partial results. -/
def mkReport (commands : List String) (et : EquipmentType) (emsg : String)
    (st : PhaseState) : ExecReport :=
  if st.raised then
    { success := false, equipment_type := et.value, total_commands := commands.length,
      successful_commands := 0, results := st.results, error := some emsg }
  else
    { success := st.allSuccess, equipment_type := et.value,
      total_commands := commands.length,
      successful_commands := st.results.countP (fun r => r.success),
      results := st.results, error := none }

/-- SSHClient.execute_commands (lines 210-282): entry phase with
abort-on-first-failure, main phase (only when the entry phase fully
succeeded) over the caller commands filtered of commands textually identical
to an entry command (line 247), exit phase always - unless an unexpected
exception has already escaped, in which case control jumps to the except
branch immediately. -/
def execute_commands (commands : List String) (et : EquipmentType)
    (dev : Nat → CmdBehavior) (intr : Nat → Bool) (emsg : String) : ExecReport :=
  let entryCmds := get_config_mode_commands et
  let st0 : PhaseState := { results := [], allSuccess := true, idx := 0, raised := false }
  let st1 := runEntry dev intr entryCmds st0
  let st2 :=
    if st1.raised then st1
    else if st1.allSuccess then
      runMain dev intr (commands.filter (fun c => !(entryCmds.contains c))) st1
    else st1
  let st3 := if st2.raised then st2 else runExit dev intr (get_exit_commands et) st2
  mkReport commands et emsg st3

/-- The list of results produced by executing the given commands in order
against the device oracle starting at execution index n. -/
def execList (dev : Nat → CmdBehavior) : Nat → List String → List CommandResult
  | _, [] => []
  | n, cmd :: rest => execute_command cmd (dev n) :: execList dev (n + 1) rest

/-! ### Session wrapper (execute_commands_ssh, lines 323-361) -/

/-- Observable session-level events of execute_commands_ssh. -/
inductive SshEvent where
  | connectAttempt
  | execBatch
  | disconnectCall
deriving DecidableEq

/-- The Python try/finally of lines 337-359: the body produces a trace of
events and either a value or a propagating exception; the finalizer events
run in every case. -/
def tryFinallyTrace (body : List SshEvent × Except String String)
    (fin : List SshEvent) : List SshEvent × Except String String :=
  (body.1 ++ fin, body.2)

/-- The connection-failure message of line 361 (constant prefix). -/
def connectFailMsg : String := "Не удалось подключиться к устройству"

/-- execute_commands_ssh (lines 323-361), abstracted over the try-block body
(the execute_commands call plus result formatting): when connect succeeds the
body runs under try/finally with disconnect as the finalizer; when connect
fails, an exception is raised and no teardown runs (no session exists). -/
def execute_commands_ssh_trace (connectOk : Bool)
    (body : List SshEvent × Except String String) :
    List SshEvent × Except String String :=
  if connectOk then
    let inner := tryFinallyTrace body [SshEvent.disconnectCall]
    (SshEvent.connectAttempt :: inner.1, inner.2)
  else (SshEvent.connectAttempt :: [], Except.error connectFailMsg)

/-- The connection-handle fields of SSHClient (lines 41-44): whether each of
connection, stdin, stdout, stderr currently holds a live handle. -/
structure ClientState where
  connection : Bool
  stdin : Bool
  stdout : Bool
  stderr : Bool
deriving DecidableEq

/-- SSHClient.disconnect (lines 88-98): after the call every handle field is
None, whatever the starting state. -/
def disconnectState (_ : ClientState) : ClientState :=
  { connection := false, stdin := false, stdout := false, stderr := false }

/-- The close operations actually performed by one disconnect call (lines
90-94): the write side is closed only when stdin is live, the connection is
closed and awaited only when it is live. -/
def disconnectActions (s : ClientState) : List String :=
  (if s.stdin then ["close_stdin"] else []) ++
  (if s.connection then ["close_connection", "wait_closed"] else [])

/-! ### Configuration validator (tools/__init__.py, ConfigurationValidator) -/

/-- The shape of a dangerous pattern from tools/__init__.py lines 331-364:
either a regex of the form word-boundary literal word-boundary, or a plain
literal (the MikroTik patterns, which contain no boundary anchors). -/
inductive DangerPattern where
  | wordBounded (w : String)
  | plain (w : String)
deriving DecidableEq

/-- Python regex word characters, restricted to the character repertoire of
device commands: letters, digits and the underscore. -/
def isWordChar (c : Char) : Bool := c.isAlphanum || c == '_'

/-- Whether the character just before a candidate match position is a word
boundary (start of string or a non-word character). -/
def boundaryBefore : Option Char → Bool
  | none => true
  | some c => !isWordChar c

/-- Whether the position just after a candidate match is a word boundary
(end of string or a non-word character). -/
def boundaryAfter : List Char → Bool
  | [] => true
  | c :: _ => !isWordChar c

/-- Match of the pattern at the current position with boundary checks on both
sides.  Faithful to the source patterns, all of which begin and end with a
word character, so the boundary test degenerates to the neighbour being
non-word or absent. -/
def boundedHere (pat s : List Char) (prev : Option Char) : Bool :=
  boundaryBefore prev && pat.isPrefixOf s && boundaryAfter (s.drop pat.length)

/-- re.search for a boundary-anchored literal: try every position, tracking
the previous character for the left boundary. -/
def boundedSearch (pat : List Char) : Option Char → List Char → Bool
  | prev, [] => boundedHere pat [] prev
  | prev, c :: cs => boundedHere pat (c :: cs) prev || boundedSearch pat (some c) cs

/-- re.search of one dangerous pattern against a (already lowercased)
command string (tools/__init__.py line 371). -/
def patMatches : DangerPattern → String → Bool
  | DangerPattern.wordBounded w, s => boundedSearch w.toList none s.toList
  | DangerPattern.plain w, s => subSearch w.toList s.toList

/-- The per-equipment dangerous pattern tables of lines 331-364, in source
order, with their descriptions. -/
def dangerous_patterns : EquipmentType → List (DangerPattern × String)
  | EquipmentType.CISCO_IOS =>
    [(DangerPattern.wordBounded "erase", "Стирание конфигурации (erase)"),
     (DangerPattern.wordBounded "delete", "Удаление файлов (delete)"),
     (DangerPattern.wordBounded "reload", "Перезагрузка оборудования (reload)"),
     (DangerPattern.wordBounded "format", "Форматирование (format)"),
     (DangerPattern.wordBounded "write memory", "Сохранение конфигурации (write memory)"),
     (DangerPattern.wordBounded "write", "Сохранение конфигурации (write)"),
     (DangerPattern.wordBounded "no shutdown", "Включение интерфейса (no shutdown)"),
     (DangerPattern.wordBounded "shutdown", "Отключение интерфейса (shutdown)")]
  | EquipmentType.JUNIPER_JUNOS =>
    [(DangerPattern.wordBounded "commit", "Применение изменений (commit)"),
     (DangerPattern.wordBounded "request system reboot", "Перезагрузка системы (request system reboot)"),
     (DangerPattern.wordBounded "request system halt", "Выключение системы (request system halt)")]
  | EquipmentType.HUAWEI =>
    [(DangerPattern.wordBounded "save", "Сохранение конфигурации (save)"),
     (DangerPattern.wordBounded "reset", "Сброс настроек (reset)"),
     (DangerPattern.wordBounded "reboot", "Перезагрузка (reboot)"),
     (DangerPattern.wordBounded "shutdown", "Отключение интерфейса (shutdown)")]
  | EquipmentType.MIKROTIK =>
    [(DangerPattern.plain "/system reboot", "Перезагрузка (reboot)"),
     (DangerPattern.plain "/system shutdown", "Выключение (shutdown)"),
     (DangerPattern.plain "/interface disable", "Отключение интерфейса")]

/-- The read-only marker set of line 374. -/
def safe_keywords : List String := ["show", "display", "get", "view", "print"]

/-- The warning string built at line 376. -/
def mkWarning (description cmd : String) : String :=
  "WARNING: " ++ description ++ ": " ++ cmd

/-- The result dictionary of validate_commands (lines 378-382). -/
structure ValidationVerdict where
  is_safe : Bool
  warnings : List String
  dangerous_commands_count : Nat
deriving DecidableEq

/-- The nested accumulation loop of lines 368-376: for each command in order,
for each pattern in table order, append a warning when the pattern matches the
lowercased command and no read-only marker occurs in it. -/
def commandLoop (pats : List (DangerPattern × String)) :
    List String → List String → List String
  | acc, [] => acc
  | acc, cmd :: rest =>
    let cmdLower := lowerString cmd
    let acc2 := pats.foldl (fun a pd =>
      if patMatches pd.1 cmdLower then
        if !(safe_keywords.any (fun k => strContains cmdLower k)) then
          a ++ [mkWarning pd.2 cmd]
        else a
      else a) acc
    commandLoop pats acc2 rest

/-- ConfigurationValidator.validate_commands (lines 315-382). -/
def validate_commands (commands : List String) (et : EquipmentType) : ValidationVerdict :=
  let warnings := commandLoop (dangerous_patterns et) [] commands
  { is_safe := warnings.length == 0
    warnings := warnings
    dangerous_commands_count := warnings.length }

/-- The per-command warning list used to characterise commandLoop: one entry
per pattern that matches the lowercased command and is not suppressed by a
read-only marker, in table order. -/
def warningsForCommand (pats : List (DangerPattern × String)) (cmd : String) : List String :=
  pats.filterMap (fun pd =>
    if patMatches pd.1 (lowerString cmd) &&
       !(safe_keywords.any (fun k => strContains (lowerString cmd) k)) then
      some (mkWarning pd.2 cmd)
    else none)

/-! ### Helper lemmas -/

/-- Boolean list prefix check characterised as an existential split. -/
theorem isPrefixOf_iff : ∀ (n l : List Char), n.isPrefixOf l = true ↔ ∃ t, n ++ t = l := by
  intro n
  induction n with
  | nil =>
    intro l
    simp [List.isPrefixOf]
  | cons a as ih =>
    intro l
    cases l with
    | nil =>
      simp [List.isPrefixOf]
    | cons b bs =>
      simp only [List.isPrefixOf, Bool.and_eq_true, beq_iff_eq, ih bs]
      constructor
      · rintro ⟨rfl, t, rfl⟩
        exact ⟨t, rfl⟩
      · rintro ⟨t, h⟩
        injection h with h1 h2
        exact ⟨h1, t, h2⟩

/-- Correctness of the substring scan: it decides the existence of a split. -/
theorem subSearch_iff : ∀ (n l : List Char),
    subSearch n l = true ↔ ∃ pre post, pre ++ n ++ post = l := by
  intro n l
  induction l with
  | nil =>
    cases n with
    | nil => simp [subSearch]
    | cons c cs => simp [subSearch, List.isEmpty]
  | cons c cs ih =>
    simp only [subSearch, Bool.or_eq_true, isPrefixOf_iff, ih]
    constructor
    · rintro (⟨t, h⟩ | ⟨pre, post, h⟩)
      · exact ⟨[], t, h⟩
      · exact ⟨c :: pre, post, by simp [h]⟩
    · rintro ⟨pre, post, h⟩
      cases pre with
      | nil => exact Or.inl ⟨post, h⟩
      | cons p ps =>
        injection h with h1 h2
        exact Or.inr ⟨ps, post, h2⟩

/-- Correctness of the string containment model. -/
theorem strContains_iff (hay needle : String) :
    strContains hay needle = true ↔
      ∃ pre post, pre ++ needle.toList ++ post = hay.toList := by
  exact subSearch_iff needle.toList hay.toList

/-- The command field of a result is always the executed command. -/
theorem execute_command_command (cmd : String) (b : CmdBehavior) :
    (execute_command cmd b).command = cmd := by
  cases b <;> rfl

/-- Mapping the command field over an execution list recovers the commands. -/
theorem execList_map_command (dev : Nat → CmdBehavior) :
    ∀ (n : Nat) (cmds : List String),
      (execList dev n cmds).map (fun r => r.command) = cmds := by
  intro n cmds
  induction cmds generalizing n with
  | nil => rfl
  | cons c rest ih =>
    simp [execList, execute_command_command, ih]

/-- The length of an execution list is the number of commands. -/
theorem execList_length (dev : Nat → CmdBehavior) :
    ∀ (n : Nat) (cmds : List String),
      (execList dev n cmds).length = cmds.length := by
  intro n cmds
  induction cmds generalizing n with
  | nil => rfl
  | cons c rest ih =>
    simp [execList, ih]

/-- With no interruptions, the main loop appends exactly one result per
command, folds the successes into the flag, advances the index by the number
of commands and leaves the raised flag alone. -/
theorem runMain_noIntr (dev : Nat → CmdBehavior) :
    ∀ (cmds : List String) (st : PhaseState),
      runMain dev noIntr cmds st =
        { results := st.results ++ execList dev st.idx cmds
          allSuccess := st.allSuccess && (execList dev st.idx cmds).all (fun r => r.success)
          idx := st.idx + cmds.length
          raised := st.raised } := by
  intro cmds
  induction cmds with
  | nil =>
    intro st
    simp [runMain, execList]
  | cons c rest ih =>
    intro st
    simp only [runMain, noIntr, if_neg (by simp : ¬ (false = true))]
    rw [ih]
    simp [execList, PhaseState.mk.injEq, Bool.and_assoc]
    omega

/-- With no interruptions, the exit loop appends exactly one result per
command and changes nothing else but the index. -/
theorem runExit_noIntr (dev : Nat → CmdBehavior) :
    ∀ (cmds : List String) (st : PhaseState),
      runExit dev noIntr cmds st =
        { results := st.results ++ execList dev st.idx cmds
          allSuccess := st.allSuccess
          idx := st.idx + cmds.length
          raised := st.raised } := by
  intro cmds
  induction cmds with
  | nil =>
    intro st
    simp [runExit, execList]
  | cons c rest ih =>
    intro st
    simp only [runExit, noIntr, if_neg (by simp : ¬ (false = true))]
    rw [ih]
    simp [execList, PhaseState.mk.injEq]
    omega

/-- With no interruptions and every entry command succeeding, the entry loop
runs to completion: one result per command, flag untouched. -/
theorem runEntry_noIntr_ok (dev : Nat → CmdBehavior) :
    ∀ (cmds : List String) (st : PhaseState),
      (execList dev st.idx cmds).all (fun r => r.success) = true →
      runEntry dev noIntr cmds st =
        { results := st.results ++ execList dev st.idx cmds
          allSuccess := st.allSuccess
          idx := st.idx + cmds.length
          raised := st.raised } := by
  intro cmds
  induction cmds with
  | nil =>
    intro st _
    simp [runEntry, execList]
  | cons c rest ih =>
    intro st h
    simp only [execList, List.all_cons, Bool.and_eq_true] at h
    simp only [runEntry, noIntr, h.1, if_pos, if_neg (by simp : ¬ (false = true))]
    rw [ih _ h.2]
    simp [execList, PhaseState.mk.injEq]
    omega

/-- With no interruptions, the final entry-phase flag is the conjunction of
the starting flag with the success flags of the full entry execution list:
when the loop aborts early on a failure, the failing element already makes
the conjunction false. -/
theorem runEntry_noIntr_flag (dev : Nat → CmdBehavior) :
    ∀ (cmds : List String) (st : PhaseState),
      (runEntry dev noIntr cmds st).allSuccess =
        (st.allSuccess && (execList dev st.idx cmds).all (fun r => r.success)) := by
  intro cmds
  induction cmds with
  | nil =>
    intro st
    simp [runEntry, execList]
  | cons c rest ih =>
    intro st
    by_cases hr : (execute_command c (dev st.idx)).success = true
    · simp only [runEntry, noIntr, hr, if_pos, if_neg (by simp : ¬ (false = true))]
      rw [ih]
      simp [execList, hr, Bool.and_assoc]
    · simp only [Bool.not_eq_true] at hr
      simp [runEntry, noIntr, hr, execList]

/-- With no interruptions, the entry loop never sets the raised flag. -/
theorem runEntry_noIntr_raised (dev : Nat → CmdBehavior) :
    ∀ (cmds : List String) (st : PhaseState),
      (runEntry dev noIntr cmds st).raised = st.raised := by
  intro cmds
  induction cmds with
  | nil =>
    intro st
    simp [runEntry]
  | cons c rest ih =>
    intro st
    by_cases hr : (execute_command c (dev st.idx)).success = true
    · simp only [runEntry, noIntr, hr, if_pos, if_neg (by simp : ¬ (false = true))]
      rw [ih]
    · simp only [Bool.not_eq_true] at hr
      simp [runEntry, noIntr, hr]

/-- Full characterisation of a batch with no interruptions whose entry phase
fully succeeds: results are the entry, filtered-main and exit executions in
order, the success flag is the conjunction of the main-phase successes, the
successful count is the count over the whole results list, and there is no
top-level error. -/
theorem execute_commands_noIntr_entryOk (commands : List String) (et : EquipmentType)
    (dev : Nat → CmdBehavior) (emsg : String)
    (h : (execList dev 0 (get_config_mode_commands et)).all (fun r => r.success) = true) :
    execute_commands commands et dev noIntr emsg =
      { success := (execList dev (get_config_mode_commands et).length
            (commands.filter (fun c => !((get_config_mode_commands et).contains c)))).all
            (fun r => r.success)
        equipment_type := et.value
        total_commands := commands.length
        successful_commands :=
          ((execList dev 0 (get_config_mode_commands et) ++
            execList dev (get_config_mode_commands et).length
              (commands.filter (fun c => !((get_config_mode_commands et).contains c))) ++
            execList dev ((get_config_mode_commands et).length +
                (commands.filter (fun c => !((get_config_mode_commands et).contains c))).length)
              (get_exit_commands et))).countP (fun r => r.success)
        results :=
          execList dev 0 (get_config_mode_commands et) ++
          execList dev (get_config_mode_commands et).length
            (commands.filter (fun c => !((get_config_mode_commands et).contains c))) ++
          execList dev ((get_config_mode_commands et).length +
              (commands.filter (fun c => !((get_config_mode_commands et).contains c))).length)
            (get_exit_commands et)
        error := none } := by
  have e1 := runEntry_noIntr_ok dev (get_config_mode_commands et)
      { results := [], allSuccess := true, idx := 0, raised := false } h
  simp only [List.nil_append, Nat.zero_add] at e1
  simp only [execute_commands, e1, runMain_noIntr, runExit_noIntr, mkReport]
  simp [List.append_assoc]

/-- On any return path without a top-level error, the report counts exactly
the successful results. -/
theorem mkReport_error_none (commands : List String) (et : EquipmentType)
    (emsg : String) (st : PhaseState)
    (h : (mkReport commands et emsg st).error = none) :
    (mkReport commands et emsg st).successful_commands =
      ((mkReport commands et emsg st).results).countP (fun r => r.success) := by
  by_cases hr : st.raised = true
  · simp [mkReport, hr] at h
  · simp only [Bool.not_eq_true] at hr
    simp [mkReport, hr]

/-- Claim C1 (corrected), counterexample: a batch whose first entry command
succeeds and is then followed by an unexpected exception returns the
top-level-error report with successful_count 0 although the collected partial
results contain one successful entry, so the invariant fails on the
exception path. -/
theorem c1_successful_count_counterexample :
    (execute_commands [] EquipmentType.CISCO_IOS
        (fun _ => CmdBehavior.read [ReadEvent.chunk "Router#"])
        (fun i => i == 0) "boom").error = some "boom" ∧
    (execute_commands [] EquipmentType.CISCO_IOS
        (fun _ => CmdBehavior.read [ReadEvent.chunk "Router#"])
        (fun i => i == 0) "boom").successful_commands = 0 ∧
    ((execute_commands [] EquipmentType.CISCO_IOS
        (fun _ => CmdBehavior.read [ReadEvent.chunk "Router#"])
        (fun i => i == 0) "boom").results).countP (fun r => r.success) = 1 := by
  decide

/-- Claim C1 (amended): the ExecutionReport invariant successful_count equal
to the number of successful entries in results holds on every return path
that does not carry a top-level error; on the unexpected-exception path the
code reports successful_count 0 regardless of the partial results. -/
theorem c1_successful_count (commands : List String) (et : EquipmentType)
    (dev : Nat → CmdBehavior) (intr : Nat → Bool) (emsg : String)
    (h : (execute_commands commands et dev intr emsg).error = none) :
    (execute_commands commands et dev intr emsg).successful_commands =
      ((execute_commands commands et dev intr emsg).results).countP (fun r => r.success) := by
  unfold execute_commands at h ⊢
  exact mkReport_error_none _ _ _ _ h

/-- Witness for the amended C1 theorem at a concrete error-free batch. -/
theorem c1_successful_count_witness :
    (execute_commands ["hostname R1"] EquipmentType.MIKROTIK
        (fun _ => CmdBehavior.read [ReadEvent.chunk "ok#"]) noIntr "e").error = none ∧
    (execute_commands ["hostname R1"] EquipmentType.MIKROTIK
        (fun _ => CmdBehavior.read [ReadEvent.chunk "ok#"]) noIntr "e").successful_commands =
      ((execute_commands ["hostname R1"] EquipmentType.MIKROTIK
        (fun _ => CmdBehavior.read [ReadEvent.chunk "ok#"]) noIntr "e").results).countP
        (fun r => r.success) :=
  ⟨by decide, c1_successful_count _ _ _ _ _ (by decide)⟩

/-- Prepending the empty accumulator is the identity. -/
theorem string_nil_append (s : String) : "" ++ s = s := rfl

/-- A single-chunk read window returns the chunk unchanged, whether or not it
holds a prompt terminator. -/
theorem read_single_chunk (s : String) :
    read_until_timeout [ReadEvent.chunk s] "" = s := by
  simp only [read_until_timeout, ite_self, string_nil_append]

/-- Claim C2 (corrected), counterexample: a read window that is exhausted
without any prompt terminator in the accumulated output makes execute_command
report SUCCESS with no failure reason at all, because _read_until_timeout
returns the partial buffer instead of raising, so the distinct timeout branch
is never taken for read-loop exhaustion. -/
theorem c2_read_timeout_counterexample :
    hasTerminator (read_until_timeout [ReadEvent.chunk "loading", ReadEvent.tick] "") = false ∧
    (execute_command "show clock"
        (CmdBehavior.read [ReadEvent.chunk "loading", ReadEvent.tick])).success = true ∧
    (execute_command "show clock"
        (CmdBehavior.read [ReadEvent.chunk "loading", ReadEvent.tick])).error = none := by
  decide

/-- Claim C2 (amended): a command whose read loop exhausts its window without
a recognizable prompt terminator does not raise - the partial buffer is
returned as the output and classified by the ordinary failure-keyword rule,
never with the distinct timeout reason; the distinct timeout reason is
produced exactly when an asyncio.TimeoutError escapes the send path, and in
no case is the batch or the session aborted. -/
theorem c2_read_timeout (cmd : String) (evs : List ReadEvent)
    (h : hasTerminator (read_until_timeout evs "") = false) :
    (execute_command cmd (CmdBehavior.read evs)).output = read_until_timeout evs "" ∧
    (execute_command cmd (CmdBehavior.read evs)).success =
      classifySuccess (read_until_timeout evs "") ∧
    (execute_command cmd (CmdBehavior.read evs)).error ≠ some timeoutReason ∧
    (execute_command cmd CmdBehavior.timeoutErr).success = false ∧
    (execute_command cmd CmdBehavior.timeoutErr).error = some timeoutReason := by
  refine ⟨rfl, rfl, ?_, rfl, rfl⟩
  simp only [execute_command]
  by_cases hc : classifySuccess (read_until_timeout evs "") = true
  · simp [hc]
  · simp only [Bool.not_eq_true] at hc
    simp only [hc, if_neg (by simp : ¬ (false = true)), ne_eq, Option.some.injEq]
    decide

/-- Witness for the amended C2 theorem at a concrete exhausted read window. -/
theorem c2_read_timeout_witness :
    hasTerminator (read_until_timeout [ReadEvent.chunk "loading ", ReadEvent.tick] "") = false ∧
    ((execute_command "show clock"
        (CmdBehavior.read [ReadEvent.chunk "loading ", ReadEvent.tick])).output =
      read_until_timeout [ReadEvent.chunk "loading ", ReadEvent.tick] "" ∧
    (execute_command "show clock"
        (CmdBehavior.read [ReadEvent.chunk "loading ", ReadEvent.tick])).success =
      classifySuccess (read_until_timeout [ReadEvent.chunk "loading ", ReadEvent.tick] "") ∧
    (execute_command "show clock"
        (CmdBehavior.read [ReadEvent.chunk "loading ", ReadEvent.tick])).error ≠
      some timeoutReason ∧
    (execute_command "show clock" CmdBehavior.timeoutErr).success = false ∧
    (execute_command "show clock" CmdBehavior.timeoutErr).error = some timeoutReason) :=
  ⟨by decide, c2_read_timeout "show clock" [ReadEvent.chunk "loading ", ReadEvent.tick] (by decide)⟩

/-- The success flag of a single-chunk execution is the keyword
classification of that chunk. -/
theorem execute_command_single_chunk_success (cmd s : String) :
    (execute_command cmd (CmdBehavior.read [ReadEvent.chunk s])).success =
      classifySuccess s := by
  simp only [execute_command, read_single_chunk]

/-- The error field of a single-chunk execution follows the classification. -/
theorem execute_command_single_chunk_error (cmd s : String) :
    (execute_command cmd (CmdBehavior.read [ReadEvent.chunk s])).error =
      (if classifySuccess s then none else some genericErrorReason) := by
  simp only [execute_command, read_single_chunk]

/-- Claim C3 (confirmed): a command is classified successful exactly when its
raw captured output, case-folded, contains none of the failure keywords, and
in particular the output Router(config)# is successful while the output
beginning with the percent rejection marker is failed with the generic
rejection reason. -/
theorem c3_classification (cmd s : String) :
    ((execute_command cmd (CmdBehavior.read [ReadEvent.chunk s])).success = true ↔
      ∀ k ∈ failureKeywords,
        ¬ ∃ pre post, pre ++ k.toList ++ post = (lowerString s).toList) ∧
    (execute_command cmd (CmdBehavior.read [ReadEvent.chunk "Router(config)#"])).success = true ∧
    (execute_command cmd (CmdBehavior.read [ReadEvent.chunk "% Invalid input detected"])).success = false ∧
    (execute_command cmd
        (CmdBehavior.read [ReadEvent.chunk "% Invalid input detected"])).error =
      some genericErrorReason := by
  refine ⟨?_, ?_, ?_, ?_⟩
  · rw [execute_command_single_chunk_success, classifySuccess]
    simp only [Bool.not_eq_true', List.any_eq_false, Bool.not_eq_true]
    constructor
    · intro hall k hk hex
      have h2 := (strContains_iff (lowerString s) k).mpr hex
      have h1 := hall k hk
      rw [h1] at h2
      exact Bool.false_ne_true h2
    · intro hall k hk
      by_cases hb : strContains (lowerString s) k = true
      · exact absurd ((strContains_iff _ _).mp hb) (hall k hk)
      · exact Bool.eq_false_iff.mpr hb
  · rw [execute_command_single_chunk_success]
    decide
  · rw [execute_command_single_chunk_success]
    decide
  · rw [execute_command_single_chunk_error]
    decide

/-- Claim C4 (confirmed): when the first configuration-entry command fails,
the attempted commands are exactly that first entry command followed by the
whole exit sequence - no further entry command, no main-phase command - and
the results count is one plus the number of exit commands. -/
theorem c4_entry_first_fail (commands : List String) (et : EquipmentType)
    (dev : Nat → CmdBehavior) (emsg : String) (e0 : String) (rest : List String)
    (hentry : get_config_mode_commands et = e0 :: rest)
    (hfail : (execute_command e0 (dev 0)).success = false) :
    (execute_commands commands et dev noIntr emsg).results.map (fun r => r.command) =
        e0 :: get_exit_commands et ∧
    (execute_commands commands et dev noIntr emsg).results.length =
        1 + (get_exit_commands et).length := by
  have hst1 : runEntry dev noIntr (e0 :: rest)
      { results := [], allSuccess := true, idx := 0, raised := false } =
      { results := [execute_command e0 (dev 0)], allSuccess := false,
        idx := 1, raised := false } := by
    simp [runEntry, hfail]
  simp only [execute_commands, hentry, hst1, runExit_noIntr, mkReport]
  simp [execList_map_command, execute_command_command, execList_length, Nat.add_comm]

/-- Witness for the C4 theorem: a Cisco batch whose enable command is
rejected attempts only enable and then the two exit commands. -/
theorem c4_entry_first_fail_witness :
    (execute_command "enable" ((fun _ => CmdBehavior.read [ReadEvent.chunk "% error"]) 0)).success = false ∧
    ((execute_commands ["hostname R1"] EquipmentType.CISCO_IOS
        (fun _ => CmdBehavior.read [ReadEvent.chunk "% error"]) noIntr "e").results.map
        (fun r => r.command) = "enable" :: get_exit_commands EquipmentType.CISCO_IOS ∧
    (execute_commands ["hostname R1"] EquipmentType.CISCO_IOS
        (fun _ => CmdBehavior.read [ReadEvent.chunk "% error"]) noIntr "e").results.length =
      1 + (get_exit_commands EquipmentType.CISCO_IOS).length) :=
  ⟨by decide,
   c4_entry_first_fail ["hostname R1"] EquipmentType.CISCO_IOS
     (fun _ => CmdBehavior.read [ReadEvent.chunk "% error"]) "e" "enable"
     ["configure terminal"] rfl (by decide)⟩

/-- Claim C5 (confirmed): when the entry phase fully succeeds, every filtered
main-phase command is attempted whatever the individual outcomes, the overall
success flag equals the conjunction of the main-phase outcomes (so one failing
main command makes it false, and exit-phase outcomes never change it), and
the successful count is exactly the number of successful attempted commands. -/
theorem c5_main_continue_on_error (commands : List String) (et : EquipmentType)
    (dev : Nat → CmdBehavior) (emsg : String)
    (hentry : (execList dev 0 (get_config_mode_commands et)).all (fun r => r.success) = true) :
    (execute_commands commands et dev noIntr emsg).results.map (fun r => r.command) =
        get_config_mode_commands et ++
        commands.filter (fun c => !((get_config_mode_commands et).contains c)) ++
        get_exit_commands et ∧
    (execute_commands commands et dev noIntr emsg).success =
        (execList dev (get_config_mode_commands et).length
          (commands.filter (fun c => !((get_config_mode_commands et).contains c)))).all
          (fun r => r.success) ∧
    (execute_commands commands et dev noIntr emsg).successful_commands =
        ((execute_commands commands et dev noIntr emsg).results).countP (fun r => r.success) := by
  rw [execute_commands_noIntr_entryOk commands et dev emsg hentry]
  refine ⟨?_, rfl, rfl⟩
  simp [execList_map_command]

/-- Witness for the C5 theorem: entry succeeds, the second of the three main
commands is rejected, all three are still attempted, and the overall flag is
false. -/
theorem c5_main_continue_on_error_witness :
    (execList (fun n => if n == 3 then CmdBehavior.read [ReadEvent.chunk "% Invalid input"]
        else CmdBehavior.read [ReadEvent.chunk "Router#"]) 0
        (get_config_mode_commands EquipmentType.CISCO_IOS)).all (fun r => r.success) = true ∧
    ((execute_commands ["a", "b", "c"] EquipmentType.CISCO_IOS
        (fun n => if n == 3 then CmdBehavior.read [ReadEvent.chunk "% Invalid input"]
          else CmdBehavior.read [ReadEvent.chunk "Router#"]) noIntr "e").results.map
        (fun r => r.command) =
        get_config_mode_commands EquipmentType.CISCO_IOS ++
        (["a", "b", "c"].filter
          (fun c => !((get_config_mode_commands EquipmentType.CISCO_IOS).contains c))) ++
        get_exit_commands EquipmentType.CISCO_IOS ∧
    (execute_commands ["a", "b", "c"] EquipmentType.CISCO_IOS
        (fun n => if n == 3 then CmdBehavior.read [ReadEvent.chunk "% Invalid input"]
          else CmdBehavior.read [ReadEvent.chunk "Router#"]) noIntr "e").success =
        (execList (fun n => if n == 3 then CmdBehavior.read [ReadEvent.chunk "% Invalid input"]
            else CmdBehavior.read [ReadEvent.chunk "Router#"])
          (get_config_mode_commands EquipmentType.CISCO_IOS).length
          (["a", "b", "c"].filter
            (fun c => !((get_config_mode_commands EquipmentType.CISCO_IOS).contains c)))).all
          (fun r => r.success) ∧
    (execute_commands ["a", "b", "c"] EquipmentType.CISCO_IOS
        (fun n => if n == 3 then CmdBehavior.read [ReadEvent.chunk "% Invalid input"]
          else CmdBehavior.read [ReadEvent.chunk "Router#"]) noIntr "e").successful_commands =
        ((execute_commands ["a", "b", "c"] EquipmentType.CISCO_IOS
          (fun n => if n == 3 then CmdBehavior.read [ReadEvent.chunk "% Invalid input"]
            else CmdBehavior.read [ReadEvent.chunk "Router#"]) noIntr "e").results).countP
          (fun r => r.success)) ∧
    (execute_commands ["a", "b", "c"] EquipmentType.CISCO_IOS
        (fun n => if n == 3 then CmdBehavior.read [ReadEvent.chunk "% Invalid input"]
          else CmdBehavior.read [ReadEvent.chunk "Router#"]) noIntr "e").success = false ∧
    (execute_commands ["a", "b", "c"] EquipmentType.CISCO_IOS
        (fun n => if n == 3 then CmdBehavior.read [ReadEvent.chunk "% Invalid input"]
          else CmdBehavior.read [ReadEvent.chunk "Router#"]) noIntr "e").successful_commands = 6 :=
  ⟨by decide,
   c5_main_continue_on_error ["a", "b", "c"] EquipmentType.CISCO_IOS
     (fun n => if n == 3 then CmdBehavior.read [ReadEvent.chunk "% Invalid input"]
       else CmdBehavior.read [ReadEvent.chunk "Router#"]) "e" (by decide),
   by decide, by decide⟩

/-- Claim C6 (confirmed): once the session is established, the disconnect
finalizer runs exactly once on every exit path of the try block - normal
return or propagating exception alike - and disconnect is idempotent: a second
call finds every handle already cleared and performs no further close
operation. -/
theorem c6_teardown_once (body : List SshEvent × Except String String) (s : ClientState)
    (h : body.1.count SshEvent.disconnectCall = 0) :
    (execute_commands_ssh_trace true body).1.count SshEvent.disconnectCall = 1 ∧
    disconnectState (disconnectState s) = disconnectState s ∧
    disconnectActions (disconnectState s) = [] := by
  refine ⟨?_, rfl, rfl⟩
  simp [execute_commands_ssh_trace, tryFinallyTrace, List.count_append,
    List.count_cons, h]

/-- Witness for the C6 theorem: a body that raises mid-sequence still yields
exactly one disconnect call. -/
theorem c6_teardown_once_witness :
    ([SshEvent.execBatch], (Except.error "boom" : Except String String)).1.count
        SshEvent.disconnectCall = 0 ∧
    ((execute_commands_ssh_trace true
        ([SshEvent.execBatch], (Except.error "boom" : Except String String))).1.count
        SshEvent.disconnectCall = 1 ∧
    disconnectState (disconnectState ⟨true, true, true, true⟩) =
      disconnectState ⟨true, true, true, true⟩ ∧
    disconnectActions (disconnectState ⟨true, true, true, true⟩) = []) :=
  ⟨by decide,
   c6_teardown_once ([SshEvent.execBatch], Except.error "boom")
     ⟨true, true, true, true⟩ (by decide)⟩

/-- Claim C8 (confirmed): equipment-type resolution is total, and any
identifier that is not case-insensitively one of the four known values is
mapped to the default CISCO_IOS profile instead of failing. -/
theorem c8_unknown_equipment_default (s : String)
    (h1 : lowerString s ≠ "cisco_ios") (h2 : lowerString s ≠ "juniper_junos")
    (h3 : lowerString s ≠ "huawei") (h4 : lowerString s ≠ "mikrotik") :
    resolve_device_type s = EquipmentType.CISCO_IOS := by
  simp [resolve_device_type, equipmentTypeFromString, h1, h2, h3, h4]

/-- Witness for the C8 theorem at a concrete unknown identifier. -/
theorem c8_unknown_equipment_default_witness :
    lowerString "Arista_EOS" ≠ "cisco_ios" ∧ lowerString "Arista_EOS" ≠ "juniper_junos" ∧
    lowerString "Arista_EOS" ≠ "huawei" ∧ lowerString "Arista_EOS" ≠ "mikrotik" ∧
    resolve_device_type "Arista_EOS" = EquipmentType.CISCO_IOS :=
  ⟨by decide, by decide, by decide, by decide,
   c8_unknown_equipment_default "Arista_EOS" (by decide) (by decide) (by decide) (by decide)⟩

/-- Claim C7 (confirmed): when the entry phase succeeds, a caller command
textually identical to one of the profile entry commands is attempted exactly
once over the whole batch - during the entry phase - because the main-phase
list is filtered of entry commands and no profile exit sequence shares a
command with its entry sequence. -/
theorem c7_no_duplicate (commands : List String) (et : EquipmentType)
    (dev : Nat → CmdBehavior) (emsg : String) (c : String)
    (hentry : (execList dev 0 (get_config_mode_commands et)).all (fun r => r.success) = true)
    (hc : c ∈ get_config_mode_commands et) (hcc : c ∈ commands) :
    ((execute_commands commands et dev noIntr emsg).results.map
        (fun r => r.command)).count c = 1 := by
  rw [execute_commands_noIntr_entryOk commands et dev emsg hentry]
  have hmains :
      ((commands.filter (fun x => !((get_config_mode_commands et).contains x)))).count c = 0 := by
    rw [List.count_eq_zero]
    intro hmem
    rw [List.mem_filter] at hmem
    have h2 := hmem.2
    have h3 : (get_config_mode_commands et).contains c = true := by simpa using hc
    rw [h3] at h2
    exact Bool.false_ne_true h2
  have hent1 : (get_config_mode_commands et).count c = 1 := by
    cases et with
    | CISCO_IOS =>
      simp only [get_config_mode_commands, List.mem_cons, List.mem_singleton,
        List.not_mem_nil, or_false] at hc ⊢
      rcases hc with rfl | rfl <;> decide
    | JUNIPER_JUNOS =>
      simp only [get_config_mode_commands, List.mem_singleton] at hc ⊢
      rcases hc with rfl
      decide
    | HUAWEI =>
      simp only [get_config_mode_commands, List.mem_singleton] at hc ⊢
      rcases hc with rfl
      decide
    | MIKROTIK => simp [get_config_mode_commands] at hc
  have hexit0 : (get_exit_commands et).count c = 0 := by
    cases et with
    | CISCO_IOS =>
      simp only [get_config_mode_commands, List.mem_cons, List.mem_singleton,
        List.not_mem_nil, or_false] at hc
      rcases hc with rfl | rfl <;> decide
    | JUNIPER_JUNOS =>
      simp only [get_config_mode_commands, List.mem_singleton] at hc
      rcases hc with rfl
      decide
    | HUAWEI =>
      simp only [get_config_mode_commands, List.mem_singleton] at hc
      rcases hc with rfl
      decide
    | MIKROTIK => simp [get_config_mode_commands] at hc
  simp only [List.map_append, execList_map_command, List.count_append,
    hmains, hexit0, hent1]

/-- Witness for the C7 theorem: the caller list repeats configure terminal,
yet it is attempted exactly once. -/
theorem c7_no_duplicate_witness :
    (execList (fun _ => CmdBehavior.read [ReadEvent.chunk "Router#"]) 0
        (get_config_mode_commands EquipmentType.CISCO_IOS)).all (fun r => r.success) = true ∧
    "configure terminal" ∈ get_config_mode_commands EquipmentType.CISCO_IOS ∧
    "configure terminal" ∈ (["configure terminal", "hostname R1"] : List String) ∧
    ((execute_commands ["configure terminal", "hostname R1"] EquipmentType.CISCO_IOS
        (fun _ => CmdBehavior.read [ReadEvent.chunk "Router#"]) noIntr "e").results.map
        (fun r => r.command)).count "configure terminal" = 1 :=
  ⟨by decide, by decide, by decide,
   c7_no_duplicate ["configure terminal", "hostname R1"] EquipmentType.CISCO_IOS
     (fun _ => CmdBehavior.read [ReadEvent.chunk "Router#"]) "e" "configure terminal"
     (by decide) (by decide) (by decide)⟩

/-- One step of the per-command warning list: the head pattern contributes
its warning exactly when it matches unsuppressed. -/
theorem warningsForCommand_cons (pd : DangerPattern × String)
    (rest : List (DangerPattern × String)) (cmd : String) :
    warningsForCommand (pd :: rest) cmd =
      (if (patMatches pd.1 (lowerString cmd) &&
          !(safe_keywords.any (fun k => strContains (lowerString cmd) k))) = true then
        mkWarning pd.2 cmd :: warningsForCommand rest cmd
      else warningsForCommand rest cmd) := by
  by_cases h : (patMatches pd.1 (lowerString cmd) &&
      !(safe_keywords.any (fun k => strContains (lowerString cmd) k))) = true
  · rw [if_pos h]
    simp only [warningsForCommand, List.filterMap_cons]
    rw [if_pos h]
  · rw [if_neg h]
    simp only [warningsForCommand, List.filterMap_cons]
    rw [if_neg h]

/-- One command's pass over the pattern table appends exactly the warnings of
the matched, unsuppressed patterns, in table order. -/
theorem foldl_warn_append (pats : List (DangerPattern × String)) (cmd : String) :
    ∀ acc : List String,
      pats.foldl (fun a pd =>
        if patMatches pd.1 (lowerString cmd) then
          if !(safe_keywords.any (fun k => strContains (lowerString cmd) k)) then
            a ++ [mkWarning pd.2 cmd]
          else a
        else a) acc = acc ++ warningsForCommand pats cmd := by
  induction pats with
  | nil =>
    intro acc
    simp [warningsForCommand]
  | cons pd rest ih =>
    intro acc
    rw [List.foldl_cons, ih, warningsForCommand_cons]
    by_cases h1 : patMatches pd.1 (lowerString cmd) = true
    · by_cases h2 : (safe_keywords.any (fun k => strContains (lowerString cmd) k)) = true
      · have hn : ¬((!(safe_keywords.any (fun k => strContains (lowerString cmd) k))) = true) := by
          simp [h2]
        have hn2 : ¬((patMatches pd.1 (lowerString cmd) &&
            !(safe_keywords.any (fun k => strContains (lowerString cmd) k))) = true) := by
          simp [h2]
        rw [if_pos h1, if_neg hn, if_neg hn2]
      · have hp : (!(safe_keywords.any (fun k => strContains (lowerString cmd) k))) = true := by
          simp [h2]
        have hp2 : (patMatches pd.1 (lowerString cmd) &&
            !(safe_keywords.any (fun k => strContains (lowerString cmd) k))) = true := by
          simp [h1, hp]
        rw [if_pos h1, if_pos hp, if_pos hp2]
        simp [List.append_assoc]
    · have hn2 : ¬((patMatches pd.1 (lowerString cmd) &&
          !(safe_keywords.any (fun k => strContains (lowerString cmd) k))) = true) := by
        simp [h1]
      rw [if_neg h1, if_neg hn2]

/-- The accumulation loop over the commands produces, after the initial
accumulator, the per-command warning lists concatenated in command order. -/
theorem commandLoop_eq (pats : List (DangerPattern × String)) :
    ∀ (cmds : List String) (acc : List String),
      commandLoop pats acc cmds = acc ++ ((cmds.map (warningsForCommand pats)).flatten) := by
  intro cmds
  induction cmds with
  | nil =>
    intro acc
    simp [commandLoop]
  | cons cmd rest ih =>
    intro acc
    simp only [commandLoop]
    rw [foldl_warn_append, ih]
    simp [List.append_assoc]

/-- Claim C9 (confirmed): validate_commands is the pure function whose
warnings are, in command order then pattern order, one warning per dangerous
pattern matching the case-folded command and not suppressed by a read-only
marker, whose is_safe flag is true exactly when the warning list is empty,
and whose dangerous count is the number of warnings. -/
theorem c9_validator_characterization (commands : List String) (et : EquipmentType) :
    (validate_commands commands et).warnings =
        (commands.map (warningsForCommand (dangerous_patterns et))).flatten ∧
    ((validate_commands commands et).is_safe = true ↔
        (validate_commands commands et).warnings = []) ∧
    (validate_commands commands et).dangerous_commands_count =
        (validate_commands commands et).warnings.length := by
  have h := commandLoop_eq (dangerous_patterns et) commands []
  rw [List.nil_append] at h
  refine ⟨?_, ?_, rfl⟩
  · simpa [validate_commands] using h
  · simp only [validate_commands, beq_iff_eq, List.length_eq_zero]

/-- Claim C10 (confirmed): the MikroTik profile has empty entry and exit
sequences, so a MikroTik batch without unexpected exception attempts exactly
the caller commands, in order, one result each. -/
theorem c10_mikrotik_passthrough :
    get_config_mode_commands EquipmentType.MIKROTIK = [] ∧
    get_exit_commands EquipmentType.MIKROTIK = [] ∧
    ∀ (commands : List String) (dev : Nat → CmdBehavior) (emsg : String),
      (execute_commands commands EquipmentType.MIKROTIK dev noIntr emsg).results.map
          (fun r => r.command) = commands ∧
      (execute_commands commands EquipmentType.MIKROTIK dev noIntr emsg).results.length =
        commands.length := by
  refine ⟨rfl, rfl, fun commands dev emsg => ?_⟩
  have h := execute_commands_noIntr_entryOk commands EquipmentType.MIKROTIK dev emsg rfl
  have hf : commands.filter
      (fun c => !((get_config_mode_commands EquipmentType.MIKROTIK).contains c)) = commands := by
    simp [get_config_mode_commands]
  rw [hf] at h
  rw [h]
  simp only [get_config_mode_commands, get_exit_commands, execList]
  simp [execList_map_command, execList_length]
